import Mathlib

/-!
# Verification of the real-time coordination layer (socket module)

Shallow embedding of the socket.io-based connection/room/broadcast coordinator
of the web-backend-chunk repository (the `initialize` function and the utility
emitters of the socket module), together with the authentication middleware and
the shape of the JWT payloads signed by the auth routes.

Modelling conventions:
* Room names are strings in the source (`chat:${jobId}`, `user:${userId}`,
  `location:${a}:${b}:${r}`, `admin`).  The string encodings of the four
  families are pairwise non-overlapping (distinct literal prefixes) and
  injective in their components (decimal renderings of numbers contain no
  colon), so rooms are embedded as an inductive `RoomKey` whose constructor
  injectivity mirrors the injectivity of the string encodings.
* JavaScript numbers carried in payloads (coordinates, radii) are embedded as
  rationals; `Math.round` is `jsRound` below (round half toward positive
  infinity, which is JavaScript's tie-breaking rule).
* `socket.userId` etc. come from unchecked JWT payload fields and may be
  JavaScript `undefined`; they are embedded as `Option` values, with `none`
  playing the role of `undefined`.
* Each event handler runs to completion before the next event of the same
  connection is processed; a handler is a pure function from the server state
  to a new state plus the emits it issued.  All emits of a handler are issued
  after its membership mutations, so delivery of a handler's emits is resolved
  against the handler's post-state.
* The collaborator modules `chatService` and `notificationService` are not
  present in the repository sources (their `require` lines are commented out in
  the socket module); following the spec they are modelled as an abstract
  `World` of collaborator functions, with persistence failure modelled as an
  `Option` result.  Timestamps (`new Date()`) are omitted: no claim mentions
  them and wall-clock time is outside the embedding.
-/

/-! ## Basic identifiers -/

abbrev SocketId := Nat
abbrev UserId := String
abbrev JobId := String

/-- Room identifiers.  In the source a room is a string:
`chat:${jobId}`, `user:${socket.userId}` (where an undefined userId renders as
the literal text `undefined`), `location:${Math.round(lat)}:${Math.round(lng)}:${radius}`,
and the literal `admin` used by `broadcastToAdmins`. -/
inductive RoomKey where
  | chat (jobId : JobId)
  | user (userId : Option UserId)
  | location (latBucket lngBucket : Int) (radius : Rat)
  | admin
deriving DecidableEq, Repr

/-- JavaScript `Math.round`: nearest integer, ties toward positive infinity. -/
def jsRound (q : Rat) : Int := ⌊q + (1 : Rat) / 2⌋

/-- JWT payload as projected by the socket authentication middleware
(fields `userId`, `role`, `name`) and as signed by the auth routes
(fields `id`, `email`, `role`).  Absent fields are `none` (undefined). -/
structure Payload where
  userId : Option UserId := none
  id : Option String := none
  email : Option String := none
  role : Option String := none
  name : Option String := none
deriving DecidableEq, Repr

/-- Token payload signed by POST /login and POST /register:
`jwt.sign({ id: user.id, email: user.email, role: user.role }, ...)` —
note there is no `userId` and no `name` field. -/
def loginTokenPayload (uid email role : String) : Payload :=
  { id := some uid, email := some email, role := some role }

/-- Per-connection state: the fields the socket module stores on the socket
object.  `currentChatRoom` is read by the disconnect handler; no handler in
the module ever assigns it. -/
structure Socket where
  sid : SocketId
  userId : Option UserId
  userRole : Option String
  userName : Option String
  currentChatRoom : Option RoomKey
  locationPreference : Option (Rat × Rat × Rat)
deriving DecidableEq, Repr

/-- Global server state: the registered (connected) sockets and the room
membership relation (socket, room) maintained by socket.io. -/
structure ServerState where
  sockets : List Socket
  rooms : List (SocketId × RoomKey)
deriving DecidableEq, Repr

def initialState : ServerState := { sockets := [], rooms := [] }

def findSocket (st : ServerState) (sid : SocketId) : Option Socket :=
  st.sockets.find? (fun s => decide (s.sid = sid))

/-- Membership test: is connection `sid` in room `rk`. -/
def memRoom (st : ServerState) (sid : SocketId) (rk : RoomKey) : Bool :=
  decide ((sid, rk) ∈ st.rooms)

/-- socket.join: idempotent addition to the membership relation. -/
def joinRoom (st : ServerState) (sid : SocketId) (rk : RoomKey) : ServerState :=
  if (sid, rk) ∈ st.rooms then st
  else { st with rooms := (sid, rk) :: st.rooms }

/-- socket.leave: removal from the membership relation. -/
def leaveRoom (st : ServerState) (sid : SocketId) (rk : RoomKey) : ServerState :=
  { st with rooms := st.rooms.filter (fun p => decide (p ≠ (sid, rk))) }

/-- Update the stored socket object of connection `sid`. -/
def updateSocket (st : ServerState) (sid : SocketId) (f : Socket → Socket) : ServerState :=
  { st with sockets := st.sockets.map (fun s => if s.sid = sid then f s else s) }

/-! ## Messages and outbound events -/

/-- The message record built by the send-message handler and passed to
`ChatService.saveMessage` (the `timestamp: new Date()` field is omitted). -/
structure ChatMessage where
  jobId : JobId
  senderId : Option UserId
  senderName : Option String
  message : String
  type : String
deriving DecidableEq, Repr

/-- Payload of an outbound socket event. -/
inductive EData where
  | message (m : ChatMessage)
  | errMsg (s : String)
  | history (ms : List ChatMessage)
  | presence (uid : Option UserId) (uname : Option String)
  | typingInfo (uid : Option UserId) (uname : Option String) (isTyping : Bool)
  | raw
deriving DecidableEq, Repr

/-- Target of an outbound emit: `socket.emit` (the one socket),
`socket.to(room).emit` (room members except the sender), or
`io.to(room).emit` (all room members). -/
inductive Target where
  | onlySocket (sid : SocketId)
  | roomExcept (rk : RoomKey) (sid : SocketId)
  | room (rk : RoomKey)
deriving DecidableEq, Repr

structure Emit where
  target : Target
  event : String
  payload : EData
deriving DecidableEq, Repr

/-- Whether emit `e`, resolved against membership state `st`, is delivered to
connection `sid`. -/
def delivers (st : ServerState) (e : Emit) (sid : SocketId) : Bool :=
  match e.target with
  | .onlySocket s => decide (sid = s)
  | .roomExcept rk s => decide (sid ≠ s) && memRoom st sid rk
  | .room rk => memRoom st sid rk

/-! ## Collaborators

Modelled from the spec: the `chatService` and `notificationService` modules are
not in the repository sources (their `require` lines in the socket module are
commented out), and the JobService functions the handlers call are likewise not
among the sources; per spec §6 they are narrow collaborator contracts.  A
`World` packages them as abstract functions; a collaborator call that can throw
(persistence) returns an `Option`, `none` meaning the call threw and control
transferred to the handler's catch block.  `jwtVerify` models
`jwt.verify(token, JWT_SECRET)`: `some payload` on a valid signature (whatever
the payload's fields), `none` when verification throws (malformed/expired/bad
signature). -/

structure World where
  verifyChatAccess : JobId → Option UserId → Option String → Bool
  saveMessage : ChatMessage → Option ChatMessage
  getRecentMessages : JobId → List ChatMessage
  getOtherParticipants : JobId → Option UserId → List UserId
  jwtVerify : String → Option Payload
  verifyDriverJobAccess : JobId → Option UserId → Bool
  canDriverBid : JobId → Option UserId → Bool
  getJobCustomerId : JobId → UserId

/-- Output of processing one inbound event: the new server state, the socket
emits issued (in order), the push notifications handed to the Notification
collaborator, the job ids checked against the chat AccessGate
(`ChatService.verifyChatAccess` calls), and the messages handed to
`ChatService.saveMessage`. -/
structure StepOut where
  st : ServerState
  emits : List Emit
  pushes : List (UserId × String)
  gateChecks : List JobId
  saves : List ChatMessage
deriving Repr

def noOut (st : ServerState) : StepOut :=
  { st := st, emits := [], pushes := [], gateChecks := [], saves := [] }

/-! ## Inbound client events -/

inductive ClientEvent where
  | joinChat (jobId : JobId)
  | leaveChat (jobId : JobId)
  | sendMessage (jobId : JobId) (message : String) (mtype : Option String)
  | typing (jobId : JobId) (isTyping : Bool)
  | updateLocation (jobId : JobId) (lat lng : Rat)
  | jobStatusUpdate (jobId : JobId) (status : String)
  | placeBid (jobId : JobId) (amount : Rat)
  | subscribeNewJobs (lat lng : Rat) (radius : Option Rat)
  | disconnect
deriving DecidableEq, Repr

/-! ## Event handlers (from the socket module's `initialize`) -/

/-- The `join-chat` handler: access check, `socket.join('chat:'+jobId)`,
`chat-history` to the requester, `user-joined` to the others in the room;
on denied access an `error` to the requester only and no state change. -/
def onJoinChat (w : World) (st : ServerState) (sk : Socket) (jobId : JobId) : StepOut :=
  if w.verifyChatAccess jobId sk.userId sk.userRole then
    let rk := RoomKey.chat jobId
    { st := joinRoom st sk.sid rk,
      emits := [⟨.onlySocket sk.sid, "chat-history", .history (w.getRecentMessages jobId)⟩,
                ⟨.roomExcept rk sk.sid, "user-joined", .presence sk.userId sk.userName⟩],
      pushes := [], gateChecks := [jobId], saves := [] }
  else
    { st := st,
      emits := [⟨.onlySocket sk.sid, "error", .errMsg "Access denied to this chat"⟩],
      pushes := [], gateChecks := [jobId], saves := [] }

/-- The `leave-chat` handler: `socket.leave`, then `user-left` to the
remaining members (the handler emits unconditionally, member or not). -/
def onLeaveChat (st : ServerState) (sk : Socket) (jobId : JobId) : StepOut :=
  let rk := RoomKey.chat jobId
  { st := leaveRoom st sk.sid rk,
    emits := [⟨.roomExcept rk sk.sid, "user-left", .presence sk.userId sk.userName⟩],
    pushes := [], gateChecks := [], saves := [] }

/-- The message record the `send-message` handler hands to
`ChatService.saveMessage` for sender `sk` (`type` defaults to `'text'`). -/
def outgoingMessage (sk : Socket) (jobId : JobId) (body : String) (mtype : Option String) :
    ChatMessage :=
  { jobId := jobId, senderId := sk.userId, senderName := sk.userName,
    message := body, type := mtype.getD "text" }

/-- The `send-message` handler: access check (note: no room-membership check),
persistence, `new-message` broadcast via `io.to('chat:'+jobId)`, then push
notifications to the other participants.  A persistence throw is caught and
turned into an `error` to the sender. -/
def onSendMessage (w : World) (st : ServerState) (sk : Socket) (jobId : JobId)
    (body : String) (mtype : Option String) : StepOut :=
  if w.verifyChatAccess jobId sk.userId sk.userRole then
    let cm := outgoingMessage sk jobId body mtype
    match w.saveMessage cm with
    | some saved =>
        { st := st,
          emits := [⟨.room (RoomKey.chat jobId), "new-message", .message saved⟩],
          pushes := (w.getOtherParticipants jobId sk.userId).map
            (fun uid => (uid, "chat_message")),
          gateChecks := [jobId], saves := [cm] }
    | none =>
        { st := st,
          emits := [⟨.onlySocket sk.sid, "error", .errMsg "Failed to send message"⟩],
          pushes := [], gateChecks := [jobId], saves := [cm] }
  else
    { st := st,
      emits := [⟨.onlySocket sk.sid, "error", .errMsg "Access denied"⟩],
      pushes := [], gateChecks := [jobId], saves := [] }

/-- The `typing` handler: relay to the others in the room, no state change. -/
def onTyping (st : ServerState) (sk : Socket) (jobId : JobId) (isTyping : Bool) : StepOut :=
  { st := st,
    emits := [⟨.roomExcept (RoomKey.chat jobId) sk.sid, "typing",
               .typingInfo sk.userId sk.userName isTyping⟩],
    pushes := [], gateChecks := [], saves := [] }

/-- The `update-location` handler: driver access check, then `driver-location`
broadcast to the whole chat room via `io.to`. -/
def onUpdateLocation (w : World) (st : ServerState) (sk : Socket) (jobId : JobId) : StepOut :=
  if w.verifyDriverJobAccess jobId sk.userId then
    { st := st,
      emits := [⟨.room (RoomKey.chat jobId), "driver-location", .raw⟩],
      pushes := [], gateChecks := [], saves := [] }
  else
    { st := st,
      emits := [⟨.onlySocket sk.sid, "error", .errMsg "Access denied"⟩],
      pushes := [], gateChecks := [], saves := [] }

/-- The `job-status-update` handler: driver access check, `job-update`
broadcast to the chat room, push notification to the job's customer. -/
def onJobStatusUpdate (w : World) (st : ServerState) (sk : Socket) (jobId : JobId) : StepOut :=
  if w.verifyDriverJobAccess jobId sk.userId then
    { st := st,
      emits := [⟨.room (RoomKey.chat jobId), "job-update", .raw⟩],
      pushes := [(w.getJobCustomerId jobId, "job_update")],
      gateChecks := [], saves := [] }
  else
    { st := st,
      emits := [⟨.onlySocket sk.sid, "error", .errMsg "Access denied"⟩],
      pushes := [], gateChecks := [], saves := [] }

/-- The `place-bid` handler: bid-eligibility check, then a push notification
to the customer only (no room broadcast). -/
def onPlaceBid (w : World) (st : ServerState) (sk : Socket) (jobId : JobId) : StepOut :=
  if w.canDriverBid jobId sk.userId then
    { st := st,
      emits := [],
      pushes := [(w.getJobCustomerId jobId, "new_bid")],
      gateChecks := [], saves := [] }
  else
    { st := st,
      emits := [⟨.onlySocket sk.sid, "error", .errMsg "Cannot bid on this job"⟩],
      pushes := [], gateChecks := [], saves := [] }

/-- The LocationGroup room key computed by the `subscribe-new-jobs` handler:
`location:${Math.round(lat)}:${Math.round(lng)}:${radius}`. -/
def locKey (lat lng radius : Rat) : RoomKey :=
  RoomKey.location (jsRound lat) (jsRound lng) radius

/-- The `subscribe-new-jobs` handler: join the quantized location room
(radius defaults to 25) and record the location preference on the socket. -/
def onSubscribeNewJobs (st : ServerState) (sk : Socket) (lat lng : Rat)
    (radius : Option Rat) : StepOut :=
  let r := radius.getD 25
  let st1 := joinRoom st sk.sid (locKey lat lng r)
  { st := updateSocket st1 sk.sid (fun s => { s with locationPreference := some (lat, lng, r) }),
    emits := [], pushes := [], gateChecks := [], saves := [] }

/-- The `disconnect` handler plus the framework's own cleanup: the handler
emits a typing-cleared notice to `socket.currentChatRoom` when that field is
set (no handler ever sets it), and socket.io removes the socket from every
room and unregisters it. -/
def onDisconnect (st : ServerState) (sk : Socket) : StepOut :=
  { st := { sockets := st.sockets.filter (fun s => decide (s.sid ≠ sk.sid)),
            rooms := st.rooms.filter (fun p => decide (p.1 ≠ sk.sid)) },
    emits :=
      match sk.currentChatRoom with
      | some rk => [⟨.roomExcept rk sk.sid, "typing", .typingInfo sk.userId sk.userName false⟩]
      | none => [],
    pushes := [], gateChecks := [], saves := [] }

/-- Process one inbound event for connection `sid`.  Handlers exist only for
connections that completed the handshake (they are registered in
`st.sockets`); an event from an unknown connection does nothing. -/
def step (w : World) (st : ServerState) (sid : SocketId) (ev : ClientEvent) : StepOut :=
  match findSocket st sid with
  | none => noOut st
  | some sk =>
    match ev with
    | .joinChat jobId => onJoinChat w st sk jobId
    | .leaveChat jobId => onLeaveChat st sk jobId
    | .sendMessage jobId body mtype => onSendMessage w st sk jobId body mtype
    | .typing jobId isTyping => onTyping st sk jobId isTyping
    | .updateLocation jobId _ _ => onUpdateLocation w st sk jobId
    | .jobStatusUpdate jobId _ => onJobStatusUpdate w st sk jobId
    | .placeBid jobId _ => onPlaceBid w st sk jobId
    | .subscribeNewJobs lat lng radius => onSubscribeNewJobs st sk lat lng radius
    | .disconnect => onDisconnect st sk

/-! ## Handshake (authentication middleware + connection handler) -/

/-- The `io.use` middleware: reject when no token is supplied, reject when
`jwt.verify` throws; otherwise bind `userId`, `userRole`, `userName` from the
payload's (possibly absent) fields. -/
def authMiddleware (w : World) (token : Option String) : Except String Payload :=
  match token with
  | none => .error "Authentication error: No token provided"
  | some t =>
    match w.jwtVerify t with
    | none => .error "Authentication error: Invalid token"
    | some p => .ok p

/-- A successful handshake registers the socket and immediately joins it to
its user room `user:${socket.userId}`; a failed handshake rejects the
connection, which therefore never gets event handlers and joins no room. -/
def connect (w : World) (st : ServerState) (sid : SocketId) (token : Option String) :
    Except String ServerState :=
  match authMiddleware w token with
  | .error e => .error e
  | .ok p =>
    let sk : Socket :=
      { sid := sid, userId := p.userId, userRole := p.role, userName := p.name,
        currentChatRoom := none, locationPreference := none }
    .ok (joinRoom { st with sockets := sk :: st.sockets } sid (RoomKey.user p.userId))

/-! ## Utility emitters (module exports) -/

def emitToUser (userId : Option UserId) (event : String) (d : EData) : Emit :=
  ⟨.room (RoomKey.user userId), event, d⟩

def emitToChat (jobId : JobId) (event : String) (d : EData) : Emit :=
  ⟨.room (RoomKey.chat jobId), event, d⟩

/-- `emitToLocation`: rebuilds the location key from its arguments and emits
to that single room. -/
def emitToLocation (lat lng radius : Rat) (event : String) (d : EData) : Emit :=
  ⟨.room (locKey lat lng radius), event, d⟩

/-- `broadcastToAdmins`: emits to the literal room `admin`. -/
def broadcastToAdmins (event : String) (d : EData) : Emit :=
  ⟨.room RoomKey.admin, event, d⟩

/-! ## Whole-system runs (for reachability invariants) -/

/-- A system-level action: a connection attempt or an inbound client event. -/
inductive SysAction where
  | conn (sid : SocketId) (token : Option String)
  | client (sid : SocketId) (ev : ClientEvent)

def applyAction (w : World) (st : ServerState) : SysAction → ServerState
  | .conn sid token =>
    match connect w st sid token with
    | .ok st1 => st1
    | .error _ => st
  | .client sid ev => (step w st sid ev).st

def runActions (w : World) (as : List SysAction) : ServerState :=
  as.foldl (applyAction w) initialState

/-! ## Spec-modelled AccessGate predicate

Modelled from the spec: `ChatService.verifyChatAccess` (the `chatService`
module is absent from the sources).  Spec §4.2: true iff the identity is the
job's customer, its currently-assigned driver, or holds an admin role. -/

structure JobInfo where
  customerId : UserId
  assignedDriver : Option UserId
deriving DecidableEq, Repr

def specVerifyChatAccess (jobs : JobId → Option JobInfo) (jobId : JobId)
    (uid : Option UserId) (role : Option String) : Bool :=
  match jobs jobId with
  | none => false
  | some j =>
    decide (role = some "admin" ∨ role = some "super_admin") ||
    decide (uid = some j.customerId) ||
    (uid.isSome && decide (uid = j.assignedDriver))

/-! ## Concrete fixtures used by witnesses and counterexamples -/

/-- A socket as produced by a successful handshake with role `customer`. -/
def mkSk (sid : SocketId) (uid : String) : Socket :=
  { sid := sid, userId := some uid, userRole := some "customer", userName := some uid,
    currentChatRoom := none, locationPreference := none }

/-- A world whose access checks all pass and whose persistence succeeds. -/
def wOpen : World :=
  { verifyChatAccess := fun _ _ _ => true,
    saveMessage := some,
    getRecentMessages := fun _ => [],
    getOtherParticipants := fun _ _ => [],
    jwtVerify := fun _ => none,
    verifyDriverJobAccess := fun _ _ => true,
    canDriverBid := fun _ _ => true,
    getJobCustomerId := fun _ => "cust" }

/-- Like `wOpen`, but `ChatService.saveMessage` throws. -/
def wSaveFail : World := { wOpen with saveMessage := fun _ => none }

/-- Three connected sockets; 1 and 2 are members of `ChatRoom("J")`, 3 is not. -/
def stTwoInChat : ServerState :=
  { sockets := [mkSk 1 "u1", mkSk 2 "u2", mkSk 3 "u3"],
    rooms := [(1, RoomKey.chat "J"), (2, RoomKey.chat "J")] }

/-- The `new-message` broadcast emit of the send-message handler. -/
def newMsgEmit (J : JobId) (m : ChatMessage) : Emit :=
  ⟨.room (RoomKey.chat J), "new-message", .message m⟩

/-- Two connected sockets; 2 is a member of `ChatRoom("J")`, 1 is not. -/
def stNonMember : ServerState :=
  { sockets := [mkSk 1 "u1", mkSk 2 "u2"], rooms := [(2, RoomKey.chat "J")] }
/-- The `error` emit of the send-message handler's denial branch. -/
def accessDeniedEmit (sid : SocketId) : Emit :=
  ⟨.onlySocket sid, "error", .errMsg "Access denied"⟩
/-- A job table with one job whose customer is `cust1` and whose assigned
driver is `drv1`. -/
def jobsEx : JobId → Option JobInfo :=
  fun J => if J = "J" then some { customerId := "cust1", assignedDriver := some "drv1" } else none

/-- A world whose chat AccessGate is the spec-modelled authorization rule over
`jobsEx`. -/
def wGate : World := { wOpen with verifyChatAccess := specVerifyChatAccess jobsEx }
/-- Two connected sockets not yet in any room. -/
def stTwoSub : ServerState :=
  { sockets := [mkSk 1 "d1", mkSk 2 "d2"], rooms := [] }
/-- Squared Euclidean distance in degree space; used only to state the
premise of the dispatch-broadcast claim about radii and distances. -/
def distSq (x1 y1 x2 y2 : Rat) : Rat := (x1 - x2) * (x1 - x2) + (y1 - y2) * (y1 - y2)

/-- Two subscribed drivers at bucket (40, -74): connection 1 with radius 25,
connection 2 with radius 50. -/
def stLoc : ServerState :=
  { sockets := [mkSk 1 "d1", mkSk 2 "d2"],
    rooms := [(1, RoomKey.location 40 (-74) 25), (2, RoomKey.location 40 (-74) 50)] }
/-- No connection is a member of the `admin` room. -/
def noAdminMember (st : ServerState) : Prop :=
  ∀ sid : SocketId, (sid, RoomKey.admin) ∉ st.rooms
/-- The socket registered by a successful handshake of connection 5 with an
admin-role token. -/
def stAdm : ServerState :=
  { sockets := [{ sid := 5, userId := some "a1", userRole := some "admin",
                  userName := some "Adm", currentChatRoom := none,
                  locationPreference := none }],
    rooms := [(5, RoomKey.user (some "a1"))] }

/-- The payload of an admin-role token. -/
def adminPayload : Payload :=
  { userId := some "a1", role := some "admin", name := some "Adm" }

/-- A world whose token verification yields an admin-role payload. -/
def wAdmin : World :=
  { wOpen with jwtVerify := fun _ => some adminPayload }
/-- A world that verifies every token as a login-route token for user 42. -/
def wLogin : World :=
  { wOpen with jwtVerify := fun _ => some (loginTokenPayload "42" "a@b.c" "customer") }


/-! ## Theorems for the claims -/

/-- C1: for connections `a` and `b` that are both members of `ChatRoom(J)`, a
send-message from `a` for job `J` (with the sender's access intact and the
persistence call succeeding) produces exactly one `new-message` broadcast,
delivered to both `a` and `b` (the sender included), and delivered to no
connection that is not a member of the room; membership is unchanged. -/
theorem sendMessage_delivered_to_room_members
    (w : World) (st : ServerState) (a b : SocketId) (skA : Socket)
    (J : JobId) (body : String) (mtype : Option String) (m : ChatMessage)
    (hfind : findSocket st a = some skA)
    (hmemA : memRoom st a (RoomKey.chat J) = true)
    (hmemB : memRoom st b (RoomKey.chat J) = true)
    (hacc : w.verifyChatAccess J skA.userId skA.userRole = true)
    (hsave : w.saveMessage (outgoingMessage skA J body mtype) = some m) :
    (step w st a (.sendMessage J body mtype)).st = st ∧
    (step w st a (.sendMessage J body mtype)).emits = [newMsgEmit J m] ∧
    delivers st (newMsgEmit J m) a = true ∧
    delivers st (newMsgEmit J m) b = true ∧
    ∀ c : SocketId, memRoom st c (RoomKey.chat J) = false →
      delivers st (newMsgEmit J m) c = false := by
  refine ⟨?_, ?_, ?_, ?_, ?_⟩
  · simp [step, hfind, onSendMessage, hacc, hsave]
  · simp [step, hfind, onSendMessage, hacc, hsave, newMsgEmit]
  · simpa [delivers, newMsgEmit] using hmemA
  · simpa [delivers, newMsgEmit] using hmemB
  · intro c hc
    simpa [delivers, newMsgEmit] using hc

/-- C1 witness: concrete instance on `stTwoInChat` with sender 1 and fellow
member 2; connection 3 (not a member) does not receive the broadcast. -/
theorem sendMessage_delivered_to_room_members_witness :
    (step wOpen stTwoInChat 1 (.sendMessage "J" "hi" none)).st = stTwoInChat ∧
    (step wOpen stTwoInChat 1 (.sendMessage "J" "hi" none)).emits
      = [newMsgEmit "J" (outgoingMessage (mkSk 1 "u1") "J" "hi" none)] ∧
    delivers stTwoInChat (newMsgEmit "J" (outgoingMessage (mkSk 1 "u1") "J" "hi" none)) 1 = true ∧
    delivers stTwoInChat (newMsgEmit "J" (outgoingMessage (mkSk 1 "u1") "J" "hi" none)) 2 = true ∧
    ∀ c : SocketId, memRoom stTwoInChat c (RoomKey.chat "J") = false →
      delivers stTwoInChat (newMsgEmit "J" (outgoingMessage (mkSk 1 "u1") "J" "hi" none)) c = false :=
  sendMessage_delivered_to_room_members wOpen stTwoInChat 1 2 (mkSk 1 "u1") "J" "hi" none
    (outgoingMessage (mkSk 1 "u1") "J" "hi" none)
    (by decide) (by decide) (by decide) (by decide) (by decide)


/-- C2 counterexample: connection 1 is authenticated but NOT a member of
`ChatRoom("J")`; its send-message passes the access check and is therefore
persisted and broadcast — no error is emitted to the sender, the `new-message`
event reaches member 2, and shared state is mutated (a save occurred) — so the
handler does not enforce the Joined precondition the claim states. -/
theorem sendMessage_nonmember_not_rejected :
    memRoom stNonMember 1 (RoomKey.chat "J") = false ∧
    (∀ e ∈ (step wOpen stNonMember 1 (.sendMessage "J" "hi" none)).emits,
       e.event ≠ "error") ∧
    (∃ e ∈ (step wOpen stNonMember 1 (.sendMessage "J" "hi" none)).emits,
       e.event = "new-message" ∧
       delivers (step wOpen stNonMember 1 (.sendMessage "J" "hi" none)).st e 2 = true) ∧
    (step wOpen stNonMember 1 (.sendMessage "J" "hi" none)).saves ≠ [] := by
  decide


/-- C2 amended: a send-message is gated solely on
`ChatService.verifyChatAccess`; room membership (Joined) is not consulted.
When the access check fails the event is rejected with an error to the sender
only — no broadcast, no persistence, no state change; when the access check
passes, the message is persisted and broadcast to the room even if the sender
is not a member. -/
theorem sendMessage_gated_on_access_not_membership
    (w : World) (st : ServerState) (sid : SocketId) (sk : Socket)
    (J : JobId) (body : String) (mtype : Option String)
    (hfind : findSocket st sid = some sk) :
    (w.verifyChatAccess J sk.userId sk.userRole = false →
      (step w st sid (.sendMessage J body mtype)).st = st ∧
      (step w st sid (.sendMessage J body mtype)).emits = [accessDeniedEmit sk.sid] ∧
      (step w st sid (.sendMessage J body mtype)).saves = [] ∧
      ∀ c : SocketId, c ≠ sk.sid → delivers st (accessDeniedEmit sk.sid) c = false) ∧
    (∀ m : ChatMessage, w.verifyChatAccess J sk.userId sk.userRole = true →
      w.saveMessage (outgoingMessage sk J body mtype) = some m →
      memRoom st sid (RoomKey.chat J) = false →
      (step w st sid (.sendMessage J body mtype)).emits = [newMsgEmit J m] ∧
      (step w st sid (.sendMessage J body mtype)).saves = [outgoingMessage sk J body mtype]) := by
  constructor
  · intro hacc
    refine ⟨?_, ?_, ?_, ?_⟩
    · simp [step, hfind, onSendMessage, hacc]
    · simp [step, hfind, onSendMessage, hacc, accessDeniedEmit]
    · simp [step, hfind, onSendMessage, hacc]
    · intro c hc
      simp [delivers, accessDeniedEmit, hc]
  · intro m hacc hsave _
    constructor
    · simp [step, hfind, onSendMessage, hacc, hsave, newMsgEmit]
    · simp [step, hfind, onSendMessage, hacc, hsave]

/-- C2 amended witness: concrete instance on `stNonMember` with connection 1. -/
theorem sendMessage_gated_on_access_not_membership_witness :
    (wOpen.verifyChatAccess "J" (mkSk 1 "u1").userId (mkSk 1 "u1").userRole = false →
      (step wOpen stNonMember 1 (.sendMessage "J" "hi" none)).st = stNonMember ∧
      (step wOpen stNonMember 1 (.sendMessage "J" "hi" none)).emits
        = [accessDeniedEmit (mkSk 1 "u1").sid] ∧
      (step wOpen stNonMember 1 (.sendMessage "J" "hi" none)).saves = [] ∧
      ∀ c : SocketId, c ≠ (mkSk 1 "u1").sid →
        delivers stNonMember (accessDeniedEmit (mkSk 1 "u1").sid) c = false) ∧
    (∀ m : ChatMessage,
      wOpen.verifyChatAccess "J" (mkSk 1 "u1").userId (mkSk 1 "u1").userRole = true →
      wOpen.saveMessage (outgoingMessage (mkSk 1 "u1") "J" "hi" none) = some m →
      memRoom stNonMember 1 (RoomKey.chat "J") = false →
      (step wOpen stNonMember 1 (.sendMessage "J" "hi" none)).emits = [newMsgEmit "J" m] ∧
      (step wOpen stNonMember 1 (.sendMessage "J" "hi" none)).saves
        = [outgoingMessage (mkSk 1 "u1") "J" "hi" none]) :=
  sendMessage_gated_on_access_not_membership wOpen stNonMember 1 (mkSk 1 "u1") "J" "hi" none
    (by decide)


/-- C3: under the spec-modelled AccessGate (true iff customer, assigned driver,
or admin role), a join-chat from an identity that is none of the three yields
an access-denied error to the requester only, the connection is not added to
the room's member set (the state is unchanged), and no `user-joined` broadcast
is sent. -/
theorem joinChat_denied_for_outsiders
    (jobs : JobId → Option JobInfo) (w : World) (st : ServerState)
    (sid : SocketId) (sk : Socket) (J : JobId) (j : JobInfo)
    (hw : w.verifyChatAccess = specVerifyChatAccess jobs)
    (hfind : findSocket st sid = some sk)
    (hjob : jobs J = some j)
    (hadmin : sk.userRole ≠ some "admin")
    (hsuper : sk.userRole ≠ some "super_admin")
    (hcust : sk.userId ≠ some j.customerId)
    (hdrv : sk.userId ≠ j.assignedDriver) :
    (step w st sid (.joinChat J)).st = st ∧
    (step w st sid (.joinChat J)).emits
      = [⟨.onlySocket sk.sid, "error", .errMsg "Access denied to this chat"⟩] ∧
    ∀ c : SocketId, c ≠ sk.sid →
      delivers st ⟨.onlySocket sk.sid, "error", .errMsg "Access denied to this chat"⟩ c = false := by
  have hacc : w.verifyChatAccess J sk.userId sk.userRole = false := by
    rw [hw]
    simp [specVerifyChatAccess, hjob, hadmin, hsuper, hcust, hdrv]
  refine ⟨?_, ?_, ?_⟩
  · simp [step, hfind, onJoinChat, hacc]
  · simp [step, hfind, onJoinChat, hacc]
  · intro c hc
    simp [delivers, hc]

/-- C3 witness: connection 1 (role customer, user `u1`) is neither customer
nor driver of job `J` nor an admin; its join-chat is denied. -/
theorem joinChat_denied_for_outsiders_witness :
    (step wGate stNonMember 1 (.joinChat "J")).st = stNonMember ∧
    (step wGate stNonMember 1 (.joinChat "J")).emits
      = [⟨.onlySocket (mkSk 1 "u1").sid, "error", .errMsg "Access denied to this chat"⟩] ∧
    ∀ c : SocketId, c ≠ (mkSk 1 "u1").sid →
      delivers stNonMember
        ⟨.onlySocket (mkSk 1 "u1").sid, "error", .errMsg "Access denied to this chat"⟩ c = false :=
  joinChat_denied_for_outsiders jobsEx wGate stNonMember 1 (mkSk 1 "u1") "J"
    { customerId := "cust1", assignedDriver := some "drv1" }
    rfl (by decide) (by decide) (by decide) (by decide) (by decide) (by decide)

/-- A socket found by `findSocket st sid` carries `sid` itself. -/
theorem findSocket_sid (st : ServerState) (sid : SocketId) (sk : Socket)
    (hfind : findSocket st sid = some sk) : sk.sid = sid := by
  unfold findSocket at hfind
  have h := List.find?_some hfind
  exact of_decide_eq_true h

/-- C4: a connection whose credential is missing or fails verification is
rejected by the authentication middleware with an `Authentication error`, so
it is never registered and never joins a room; and events arriving for a
connection that is not registered are not processed at all — no state change,
no emits, no AccessGate check, no persistence (`noOut`). -/
theorem failed_handshake_rejected_and_inert
    (w : World) (st : ServerState) (sid : SocketId) (token : Option String)
    (htok : token = none ∨ ∃ t, token = some t ∧ w.jwtVerify t = none) :
    (∃ emsg, connect w st sid token = .error emsg) ∧
    (findSocket st sid = none → ∀ ev : ClientEvent, step w st sid ev = noOut st) := by
  constructor
  · rcases htok with h | ⟨t, ht, hv⟩
    · exact ⟨"Authentication error: No token provided", by simp [connect, authMiddleware, h]⟩
    · exact ⟨"Authentication error: Invalid token", by simp [connect, authMiddleware, ht, hv]⟩
  · intro hfind ev
    simp [step, hfind]

/-- C4 witness: connection 7 presents an unverifiable token under `wOpen`
(whose `jwtVerify` always throws); it is rejected, and its `join-chat` does
nothing. -/
theorem failed_handshake_rejected_and_inert_witness :
    (∃ emsg, connect wOpen initialState 7 (some "bad") = .error emsg) ∧
    step wOpen initialState 7 (.joinChat "J") = noOut initialState :=
  ⟨(failed_handshake_rejected_and_inert wOpen initialState 7 (some "bad")
      (Or.inr ⟨"bad", rfl, rfl⟩)).1,
   (failed_handshake_rejected_and_inert wOpen initialState 7 (some "bad")
      (Or.inr ⟨"bad", rfl, rfl⟩)).2 (by decide) (.joinChat "J")⟩

/-- C5 counterexample: connection 1 is a member of `ChatRoom("J")` whose other
member 2 remains connected; its disconnect emits nothing at all — in
particular not the one `user-left` notice per room the claim requires
(`socket.currentChatRoom`, the only trigger of the disconnect handler's
emission, is never assigned by any handler). -/
theorem disconnect_emits_nothing_for_chat_member :
    memRoom stTwoInChat 1 (RoomKey.chat "J") = true ∧
    memRoom stTwoInChat 2 (RoomKey.chat "J") = true ∧
    (step wOpen stTwoInChat 1 .disconnect).emits = [] := by
  decide

/-- C5 amended: after a disconnect the connection appears in zero rooms'
member sets and is unregistered, but no `user-left` notice is emitted for any
room; the only possible emission is a typing-cleared notice to
`socket.currentChatRoom`, and for a socket with that field unset (as every
socket produced by this module is) the disconnect emits nothing. -/
theorem disconnect_clears_membership_without_user_left
    (w : World) (st : ServerState) (sid : SocketId) (sk : Socket)
    (hfind : findSocket st sid = some sk) :
    (∀ rk : RoomKey, memRoom (step w st sid .disconnect).st sid rk = false) ∧
    findSocket (step w st sid .disconnect).st sid = none ∧
    (∀ e ∈ (step w st sid .disconnect).emits, e.event ≠ "user-left") ∧
    (sk.currentChatRoom = none → (step w st sid .disconnect).emits = []) := by
  have hsid := findSocket_sid st sid sk hfind
  have hstep : step w st sid .disconnect = onDisconnect st sk := by
    simp [step, hfind]
  refine ⟨?_, ?_, ?_, ?_⟩
  · intro rk
    rw [hstep]
    simp [onDisconnect, memRoom, List.mem_filter, hsid]
  · rw [hstep]
    simp [onDisconnect, findSocket, List.find?_eq_none, List.mem_filter, hsid]
  · intro e he
    rw [hstep] at he
    cases h : sk.currentChatRoom with
    | none => simp [onDisconnect, h] at he
    | some rk =>
      simp [onDisconnect, h] at he
      subst he
      show ("typing" : String) ≠ "user-left"
      decide
  · intro h
    rw [hstep]
    simp [onDisconnect, h]

/-- C5 amended witness: disconnecting member 1 of `stTwoInChat` leaves it in
no room, unregistered, and emits no `user-left`. -/
theorem disconnect_clears_membership_without_user_left_witness :
    (∀ rk : RoomKey, memRoom (step wOpen stTwoInChat 1 .disconnect).st 1 rk = false) ∧
    findSocket (step wOpen stTwoInChat 1 .disconnect).st 1 = none ∧
    (∀ e ∈ (step wOpen stTwoInChat 1 .disconnect).emits, e.event ≠ "user-left") ∧
    ((mkSk 1 "u1").currentChatRoom = none →
      (step wOpen stTwoInChat 1 .disconnect).emits = []) :=
  disconnect_clears_membership_without_user_left wOpen stTwoInChat 1 (mkSk 1 "u1") (by decide)

/-- Joining a room does not change the socket registry. -/
theorem joinRoom_sockets (st : ServerState) (sid : SocketId) (rk : RoomKey) :
    (joinRoom st sid rk).sockets = st.sockets := by
  unfold joinRoom
  split <;> rfl

/-- Updating a socket record does not change the membership relation. -/
theorem updateSocket_rooms (st : ServerState) (sid : SocketId) (f : Socket → Socket) :
    (updateSocket st sid f).rooms = st.rooms := rfl

/-- After `joinRoom`, the joining connection is a member. -/
theorem mem_joinRoom_self (st : ServerState) (sid : SocketId) (rk : RoomKey) :
    memRoom (joinRoom st sid rk) sid rk = true := by
  by_cases h : (sid, rk) ∈ st.rooms <;> simp [memRoom, joinRoom, h]

/-- `joinRoom` preserves existing memberships. -/
theorem mem_joinRoom_mono (st : ServerState) (a : SocketId) (k : RoomKey)
    (sid : SocketId) (rk : RoomKey) (h : memRoom st sid rk = true) :
    memRoom (joinRoom st a k) sid rk = true := by
  by_cases h2 : (a, k) ∈ st.rooms <;> simp [memRoom, joinRoom, h2] <;>
    simp [memRoom] at h <;> simp [h]


/-- List form: mapping an sid-preserving update over the registry leaves
lookups of other connection ids unchanged. -/
theorem find?_map_update (l : List Socket) (a sid : SocketId) (f : Socket → Socket)
    (hf : ∀ s, (f s).sid = s.sid) (h : sid ≠ a) :
    (l.map (fun s => if s.sid = a then f s else s)).find? (fun s => decide (s.sid = sid))
      = l.find? (fun s => decide (s.sid = sid)) := by
  induction l with
  | nil => rfl
  | cons s l ih =>
    simp only [List.map_cons]
    by_cases hs : s.sid = a
    · have hhead : (if s.sid = a then f s else s) = f s := if_pos hs
      have hps : decide ((f s).sid = sid) = false :=
        decide_eq_false (by rw [hf s, hs]; exact fun hc => h hc.symm)
      have hps2 : decide (s.sid = sid) = false :=
        decide_eq_false (by rw [hs]; exact fun hc => h hc.symm)
      rw [hhead]
      simp only [List.find?, hps, hps2]
      exact ih
    · have hhead : (if s.sid = a then f s else s) = s := if_neg hs
      rw [hhead]
      simp only [List.find?]
      by_cases hside : s.sid = sid
      · rw [decide_eq_true hside]
      · rw [decide_eq_false hside]
        exact ih

/-- An sid-preserving socket update leaves lookups of other connections
unchanged. -/
theorem findSocket_updateSocket_ne (st : ServerState) (a sid : SocketId)
    (f : Socket → Socket) (hf : ∀ s, (f s).sid = s.sid) (h : sid ≠ a) :
    findSocket (updateSocket st a f) sid = findSocket st sid :=
  find?_map_update st.sockets a sid f hf h

/-- The state produced by the subscribe-new-jobs handler, spelled out. -/
theorem onSubscribeNewJobs_st (st : ServerState) (sk : Socket) (lat lng : Rat)
    (radius : Option Rat) :
    (onSubscribeNewJobs st sk lat lng radius).st
      = updateSocket (joinRoom st sk.sid (locKey lat lng (radius.getD 25))) sk.sid
          (fun s => { s with locationPreference := some (lat, lng, radius.getD 25) }) := rfl

/-- Socket updates do not affect room membership. -/
theorem memRoom_updateSocket (st : ServerState) (sid : SocketId) (f : Socket → Socket)
    (s : SocketId) (rk : RoomKey) :
    memRoom (updateSocket st sid f) s rk = memRoom st s rk := rfl

/-- C6: two connections issuing subscribe-new-jobs with the same radius are
each placed into the LocationGroup room computed from their own coordinates,
and those two rooms are one and the same room exactly when the rounded
latitudes and the rounded longitudes agree (`Math.round` quantization). -/
theorem subscribe_same_bucket_same_room
    (w : World) (st : ServerState) (a b : SocketId) (ska skb : Socket)
    (lat1 lng1 lat2 lng2 r : Rat)
    (hne : b ≠ a)
    (ha : findSocket st a = some ska)
    (hb : findSocket st b = some skb) :
    memRoom (step w (step w st a (.subscribeNewJobs lat1 lng1 (some r))).st
              b (.subscribeNewJobs lat2 lng2 (some r))).st a (locKey lat1 lng1 r) = true ∧
    memRoom (step w (step w st a (.subscribeNewJobs lat1 lng1 (some r))).st
              b (.subscribeNewJobs lat2 lng2 (some r))).st b (locKey lat2 lng2 r) = true ∧
    (locKey lat1 lng1 r = locKey lat2 lng2 r ↔
      (jsRound lat1 = jsRound lat2 ∧ jsRound lng1 = jsRound lng2)) := by
  have hsa := findSocket_sid st a ska ha
  have hsb := findSocket_sid st b skb hb
  have hstep1 : step w st a (.subscribeNewJobs lat1 lng1 (some r))
      = onSubscribeNewJobs st ska lat1 lng1 (some r) := by
    simp [step, ha]
  have hfindb : findSocket (onSubscribeNewJobs st ska lat1 lng1 (some r)).st b
      = some skb := by
    rw [onSubscribeNewJobs_st]
    rw [findSocket_updateSocket_ne (joinRoom st ska.sid (locKey lat1 lng1 ((some r).getD 25)))
        ska.sid b (fun s => { s with locationPreference := some (lat1, lng1, (some r).getD 25) })
        (fun s => rfl) (by rw [hsa]; exact hne)]
    unfold findSocket
    rw [joinRoom_sockets]
    exact hb
  have hstep2 : step w (onSubscribeNewJobs st ska lat1 lng1 (some r)).st
      b (.subscribeNewJobs lat2 lng2 (some r))
      = onSubscribeNewJobs (onSubscribeNewJobs st ska lat1 lng1 (some r)).st
          skb lat2 lng2 (some r) := by
    simp [step, hfindb]
  rw [hstep1, hstep2]
  refine ⟨?_, ?_, ?_⟩
  · rw [onSubscribeNewJobs_st, memRoom_updateSocket]
    apply mem_joinRoom_mono
    rw [onSubscribeNewJobs_st, memRoom_updateSocket]
    rw [hsa]
    exact mem_joinRoom_self st a (locKey lat1 lng1 r)
  · rw [onSubscribeNewJobs_st, memRoom_updateSocket]
    rw [hsb]
    exact mem_joinRoom_self _ b (locKey lat2 lng2 r)
  · simp [locKey]


/-- C6 witness: drivers 1 and 2 subscribe at (40.3, -74.2) and (39.8, -74.1)
with radius 25; both coordinates round to bucket (40, -74), so the computed
rooms coincide; each connection is a member of its computed room. -/
theorem subscribe_same_bucket_same_room_witness :
    memRoom (step wOpen (step wOpen stTwoSub 1
        (.subscribeNewJobs (403/10) (-742/10) (some 25))).st
        2 (.subscribeNewJobs (398/10) (-741/10) (some 25))).st
      1 (locKey (403/10) (-742/10) 25) = true ∧
    memRoom (step wOpen (step wOpen stTwoSub 1
        (.subscribeNewJobs (403/10) (-742/10) (some 25))).st
        2 (.subscribeNewJobs (398/10) (-741/10) (some 25))).st
      2 (locKey (398/10) (-741/10) 25) = true ∧
    locKey (403/10) (-742/10) 25 = locKey (398/10) (-741/10) 25 := by
  have h := subscribe_same_bucket_same_room wOpen stTwoSub 1 2 (mkSk 1 "d1") (mkSk 2 "d2")
    (403/10) (-742/10) (398/10) (-741/10) 25 (by decide) (by decide) (by decide)
  exact ⟨h.1, h.2.1, h.2.2.mpr ⟨by norm_num [jsRound], by norm_num [jsRound]⟩⟩


/-- C7 counterexample: a dispatch broadcast for a job exactly at the bucket
center (40, -74) issued with radius 25 is NOT delivered to connection 2, whose
LocationGroup has the same bucket and stored radius 50 ≥ 0 = the distance from
the bucket center to the job; only the exact-radius group (connection 1)
receives it. -/
theorem emitToLocation_misses_matching_larger_radius :
    memRoom stLoc 2 (RoomKey.location (jsRound 40) (jsRound (-74)) 50) = true ∧
    distSq 40 (-74) 40 (-74) = 0 ∧ ((50 : Rat) ≥ 0) ∧
    delivers stLoc (emitToLocation 40 (-74) 25 "new-job" .raw) 2 = false ∧
    delivers stLoc (emitToLocation 40 (-74) 25 "new-job" .raw) 1 = true := by
  have h40 : jsRound (40 : Rat) = 40 := by norm_num [jsRound]
  have h74 : jsRound (-74 : Rat) = -74 := by norm_num [jsRound]
  refine ⟨?_, ?_, ?_, ?_, ?_⟩
  · rw [h40, h74]; decide
  · norm_num [distSq]
  · norm_num
  · show memRoom stLoc 2 (locKey 40 (-74) 25) = false
    unfold locKey
    rw [h40, h74]
    decide
  · show memRoom stLoc 1 (locKey 40 (-74) 25) = true
    unfold locKey
    rw [h40, h74]
    decide

/-- C7 amended: a dispatch broadcast through `emitToLocation(lat, lng, radius)`
is delivered to a connection exactly when that connection is a member of the
single LocationGroup room with bucket (round lat, round lng) and stored radius
equal to the `radius` argument; groups with the same bucket but any other
stored radius are not targeted. -/
theorem emitToLocation_targets_exact_radius_group
    (st : ServerState) (lat lng radius : Rat) (ev : String) (d : EData) (sid : SocketId) :
    delivers st (emitToLocation lat lng radius ev d) sid
      = memRoom st sid (RoomKey.location (jsRound lat) (jsRound lng) radius) := rfl

/-! ## The admin room is never joined -/


theorem noAdmin_joinRoom (st : ServerState) (sid : SocketId) (rk : RoomKey)
    (h : noAdminMember st) (hrk : rk ≠ RoomKey.admin) :
    noAdminMember (joinRoom st sid rk) := by
  intro s hmem
  unfold joinRoom at hmem
  by_cases hc : (sid, rk) ∈ st.rooms
  · rw [if_pos hc] at hmem
    exact h s hmem
  · rw [if_neg hc] at hmem
    rcases List.mem_cons.mp hmem with h1 | h1
    · have : RoomKey.admin = rk := congrArg Prod.snd h1
      exact hrk this.symm
    · exact h s h1

theorem noAdmin_leaveRoom (st : ServerState) (sid : SocketId) (rk : RoomKey)
    (h : noAdminMember st) : noAdminMember (leaveRoom st sid rk) := by
  intro s hmem
  exact h s (List.mem_filter.mp hmem).1

theorem onJoinChat_st (w : World) (st : ServerState) (sk : Socket) (jobId : JobId) :
    (onJoinChat w st sk jobId).st
      = if w.verifyChatAccess jobId sk.userId sk.userRole then
          joinRoom st sk.sid (RoomKey.chat jobId)
        else st := by
  unfold onJoinChat
  split <;> rfl

theorem onSendMessage_st (w : World) (st : ServerState) (sk : Socket) (jobId : JobId)
    (body : String) (mtype : Option String) :
    (onSendMessage w st sk jobId body mtype).st = st := by
  cases hacc : w.verifyChatAccess jobId sk.userId sk.userRole
  · simp [onSendMessage, hacc]
  · cases hs : w.saveMessage (outgoingMessage sk jobId body mtype) <;>
      simp [onSendMessage, hacc, hs]

theorem onUpdateLocation_st (w : World) (st : ServerState) (sk : Socket) (jobId : JobId) :
    (onUpdateLocation w st sk jobId).st = st := by
  cases hacc : w.verifyDriverJobAccess jobId sk.userId <;> simp [onUpdateLocation, hacc]

theorem onJobStatusUpdate_st (w : World) (st : ServerState) (sk : Socket) (jobId : JobId) :
    (onJobStatusUpdate w st sk jobId).st = st := by
  cases hacc : w.verifyDriverJobAccess jobId sk.userId <;> simp [onJobStatusUpdate, hacc]

theorem onPlaceBid_st (w : World) (st : ServerState) (sk : Socket) (jobId : JobId) :
    (onPlaceBid w st sk jobId).st = st := by
  cases hacc : w.canDriverBid jobId sk.userId <;> simp [onPlaceBid, hacc]

/-- Processing any inbound event never adds a member to the `admin` room. -/
theorem noAdmin_step (w : World) (st : ServerState) (sid : SocketId) (ev : ClientEvent)
    (h : noAdminMember st) : noAdminMember (step w st sid ev).st := by
  cases hfind : findSocket st sid with
  | none =>
    have hst : (step w st sid ev).st = st := by simp [step, hfind, noOut]
    rw [hst]
    exact h
  | some sk =>
    cases ev with
    | joinChat jobId =>
      have hstep : step w st sid (.joinChat jobId) = onJoinChat w st sk jobId := by
        simp [step, hfind]
      rw [hstep, onJoinChat_st]
      split
      · exact noAdmin_joinRoom st sk.sid (RoomKey.chat jobId) h (by simp)
      · exact h
    | leaveChat jobId =>
      have hstep : step w st sid (.leaveChat jobId) = onLeaveChat st sk jobId := by
        simp [step, hfind]
      rw [hstep]
      exact noAdmin_leaveRoom st sk.sid (RoomKey.chat jobId) h
    | sendMessage jobId body mtype =>
      have hstep : step w st sid (.sendMessage jobId body mtype)
          = onSendMessage w st sk jobId body mtype := by
        simp [step, hfind]
      rw [hstep, onSendMessage_st]
      exact h
    | typing jobId isTyping =>
      have hstep : step w st sid (.typing jobId isTyping) = onTyping st sk jobId isTyping := by
        simp [step, hfind]
      rw [hstep]
      exact h
    | updateLocation jobId lat lng =>
      have hstep : step w st sid (.updateLocation jobId lat lng)
          = onUpdateLocation w st sk jobId := by
        simp [step, hfind]
      rw [hstep, onUpdateLocation_st]
      exact h
    | jobStatusUpdate jobId status =>
      have hstep : step w st sid (.jobStatusUpdate jobId status)
          = onJobStatusUpdate w st sk jobId := by
        simp [step, hfind]
      rw [hstep, onJobStatusUpdate_st]
      exact h
    | placeBid jobId amount =>
      have hstep : step w st sid (.placeBid jobId amount) = onPlaceBid w st sk jobId := by
        simp [step, hfind]
      rw [hstep, onPlaceBid_st]
      exact h
    | subscribeNewJobs lat lng radius =>
      have hstep : step w st sid (.subscribeNewJobs lat lng radius)
          = onSubscribeNewJobs st sk lat lng radius := by
        simp [step, hfind]
      rw [hstep, onSubscribeNewJobs_st]
      exact noAdmin_joinRoom st sk.sid (locKey lat lng (radius.getD 25)) h (by simp [locKey])
    | disconnect =>
      have hstep : step w st sid .disconnect = onDisconnect st sk := by
        simp [step, hfind]
      rw [hstep]
      intro s hmem
      exact h s (List.mem_filter.mp hmem).1

/-- A successful handshake joins only the user channel, never `admin`. -/
theorem noAdmin_connect (w : World) (st : ServerState) (sid : SocketId)
    (token : Option String) (st1 : ServerState) (h : noAdminMember st)
    (hc : connect w st sid token = .ok st1) : noAdminMember st1 := by
  cases token with
  | none => simp [connect, authMiddleware] at hc
  | some t =>
    cases hv : w.jwtVerify t with
    | none => simp [connect, authMiddleware, hv] at hc
    | some p =>
      simp only [connect, authMiddleware, Except.ok.injEq] at hc
      rw [hv] at hc
      simp only [Except.ok.injEq] at hc
      rw [← hc]
      exact noAdmin_joinRoom _ sid (RoomKey.user p.userId) (fun s hm => h s hm) (by simp)

theorem noAdmin_applyAction (w : World) (st : ServerState) (a : SysAction)
    (h : noAdminMember st) : noAdminMember (applyAction w st a) := by
  cases a with
  | conn sid token =>
    cases hc : connect w st sid token with
    | ok st1 =>
      have hap : applyAction w st (SysAction.conn sid token) = st1 := by
        simp [applyAction, hc]
      rw [hap]
      exact noAdmin_connect w st sid token st1 h hc
    | error e =>
      have hap : applyAction w st (SysAction.conn sid token) = st := by
        simp [applyAction, hc]
      rw [hap]
      exact h
  | client sid ev => exact noAdmin_step w st sid ev h

theorem noAdmin_foldl (w : World) (as : List SysAction) :
    ∀ st : ServerState, noAdminMember st → noAdminMember (as.foldl (applyAction w) st) := by
  induction as with
  | nil => exact fun st h => h
  | cons a as ih => exact fun st h => ih _ (noAdmin_applyAction w st a h)

/-- In any state reachable by handshakes and client events, the `admin` room
has no members. -/
theorem noAdmin_reachable (w : World) (as : List SysAction) :
    noAdminMember (runActions w as) :=
  noAdmin_foldl w as initialState (fun s hmem => by simp [initialState] at hmem)


/-- C8 counterexample: an admin-role connection completes the handshake, but
it is placed only into its user channel, not into the `admin` room, and a
`broadcastToAdmins` emit is not delivered to it — contradicting the claim that
admin-capable connections are placed into AdminChannel and reached by
`toAdmins`. -/
theorem admin_connection_not_reached_by_admin_broadcast :
    connect wAdmin initialState 5 (some "tok") = .ok stAdm ∧
    memRoom stAdm 5 (RoomKey.user (some "a1")) = true ∧
    memRoom stAdm 5 RoomKey.admin = false ∧
    delivers stAdm (broadcastToAdmins "announce" .raw) 5 = false := by
  refine ⟨by rfl, by decide, by decide, by decide⟩

/-- C8 amended: a connection that completes the handshake is immediately
placed into its user channel `user:${userId}`; but no connection — whatever
its role — is ever joined to the `admin` room in any reachable state, so a
`broadcastToAdmins` emit is delivered to no connection at all. -/
theorem handshake_user_channel_and_empty_admin_channel
    (w : World) (st : ServerState) (sid : SocketId) (tok : String) (p : Payload)
    (hver : w.jwtVerify tok = some p) :
    (∃ st1, connect w st sid (some tok) = .ok st1 ∧
       memRoom st1 sid (RoomKey.user p.userId) = true) ∧
    ∀ (as : List SysAction) (ev : String) (d : EData) (s : SocketId),
      delivers (runActions w as) (broadcastToAdmins ev d) s = false := by
  constructor
  · refine ⟨joinRoom { st with sockets :=
        { sid := sid, userId := p.userId, userRole := p.role, userName := p.name,
          currentChatRoom := none, locationPreference := none } :: st.sockets }
        sid (RoomKey.user p.userId), ?_, ?_⟩
    · simp [connect, authMiddleware, hver]
    · exact mem_joinRoom_self _ sid (RoomKey.user p.userId)
  · intro as ev d s
    show memRoom (runActions w as) s RoomKey.admin = false
    exact decide_eq_false (noAdmin_reachable w as s)

/-- C8 amended witness: concrete admin-role handshake and a concrete run after
which an admin broadcast reaches nobody. -/
theorem handshake_user_channel_and_empty_admin_channel_witness :
    (∃ st1, connect wAdmin initialState 5 (some "tok") = .ok st1 ∧
       memRoom st1 5 (RoomKey.user adminPayload.userId) = true) ∧
    delivers (runActions wAdmin [SysAction.conn 5 (some "tok")])
      (broadcastToAdmins "announce" .raw) 5 = false :=
  ⟨(handshake_user_channel_and_empty_admin_channel wAdmin initialState 5 "tok"
      adminPayload rfl).1,
   (handshake_user_channel_and_empty_admin_channel wAdmin initialState 5 "tok"
      adminPayload rfl).2 [SysAction.conn 5 (some "tok")] "announce" .raw 5⟩

/-- C9: when the access check passes but `ChatService.saveMessage` throws, the
send-message handler's catch branch emits only an error to the sender: no
`new-message` broadcast is issued, no other connection receives anything, the
server state is unchanged, and — the handler having caught the failure — every
subsequent event (of this or any other connection) is processed exactly as it
would have been. -/
theorem sendMessage_save_failure_errors_sender_only
    (w : World) (st : ServerState) (sid : SocketId) (sk : Socket)
    (J : JobId) (body : String) (mtype : Option String)
    (hfind : findSocket st sid = some sk)
    (hacc : w.verifyChatAccess J sk.userId sk.userRole = true)
    (hsave : w.saveMessage (outgoingMessage sk J body mtype) = none) :
    (step w st sid (.sendMessage J body mtype)).st = st ∧
    (step w st sid (.sendMessage J body mtype)).emits
      = [⟨.onlySocket sk.sid, "error", .errMsg "Failed to send message"⟩] ∧
    (∀ e ∈ (step w st sid (.sendMessage J body mtype)).emits, e.event ≠ "new-message") ∧
    (∀ c : SocketId, c ≠ sk.sid →
      delivers st ⟨.onlySocket sk.sid, "error", .errMsg "Failed to send message"⟩ c = false) ∧
    (∀ (sid2 : SocketId) (ev2 : ClientEvent),
      step w (step w st sid (.sendMessage J body mtype)).st sid2 ev2 = step w st sid2 ev2) := by
  have hstep : step w st sid (.sendMessage J body mtype)
      = onSendMessage w st sk J body mtype := by
    simp [step, hfind]
  have hst : (onSendMessage w st sk J body mtype).st = st := onSendMessage_st w st sk J body mtype
  refine ⟨?_, ?_, ?_, ?_, ?_⟩
  · rw [hstep]; exact hst
  · rw [hstep]; simp [onSendMessage, hacc, hsave]
  · rw [hstep]
    intro e he
    simp [onSendMessage, hacc, hsave] at he
    subst he
    show ("error" : String) ≠ "new-message"
    decide
  · intro c hc
    simp [delivers, hc]
  · intro sid2 ev2
    rw [hstep, hst]

/-- C9 witness: under `wSaveFail` the persistence of connection 1's message
throws; only the sender sees an error and the system is undisturbed. -/
theorem sendMessage_save_failure_errors_sender_only_witness :
    (step wSaveFail stTwoInChat 1 (.sendMessage "J" "hi" none)).st = stTwoInChat ∧
    (step wSaveFail stTwoInChat 1 (.sendMessage "J" "hi" none)).emits
      = [⟨.onlySocket (mkSk 1 "u1").sid, "error", .errMsg "Failed to send message"⟩] ∧
    (∀ e ∈ (step wSaveFail stTwoInChat 1 (.sendMessage "J" "hi" none)).emits,
      e.event ≠ "new-message") ∧
    (∀ c : SocketId, c ≠ (mkSk 1 "u1").sid →
      delivers stTwoInChat
        ⟨.onlySocket (mkSk 1 "u1").sid, "error", .errMsg "Failed to send message"⟩ c = false) ∧
    (∀ (sid2 : SocketId) (ev2 : ClientEvent),
      step wSaveFail (step wSaveFail stTwoInChat 1 (.sendMessage "J" "hi" none)).st sid2 ev2
        = step wSaveFail stTwoInChat sid2 ev2) :=
  sendMessage_save_failure_errors_sender_only wSaveFail stTwoInChat 1 (mkSk 1 "u1") "J" "hi" none
    (by decide) (by decide) (by decide)

/-- C10: a token whose payload is the one signed by the login/register routes
({id, email, role} — no `userId` field) verifies, so the handshake succeeds;
the connection is bound to an undefined (`none`) user id and is placed into
the user channel keyed by that undefined id. -/
theorem login_token_handshake_binds_undefined_userId
    (w : World) (st : ServerState) (sid : SocketId) (tok uid email role : String)
    (hver : w.jwtVerify tok = some (loginTokenPayload uid email role)) :
    ∃ st1, connect w st sid (some tok) = .ok st1 ∧
      findSocket st1 sid = some ({ sid := sid, userId := none, userRole := some role,
                                   userName := none, currentChatRoom := none,
                                   locationPreference := none } : Socket) ∧
      memRoom st1 sid (RoomKey.user none) = true := by
  refine ⟨joinRoom { st with sockets :=
      { sid := sid, userId := none, userRole := some role, userName := none,
        currentChatRoom := none, locationPreference := none } :: st.sockets }
      sid (RoomKey.user none), ?_, ?_, ?_⟩
  · simp [connect, authMiddleware, hver, loginTokenPayload]
  · unfold findSocket
    rw [joinRoom_sockets]
    simp [List.find?]
  · exact mem_joinRoom_self _ sid (RoomKey.user none)


/-- C10 witness: a concrete login-route token handshake binding userId to
`none` (undefined) and joining `user:undefined`. -/
theorem login_token_handshake_binds_undefined_userId_witness :
    ∃ st1, connect wLogin initialState 9 (some "t") = .ok st1 ∧
      findSocket st1 9 = some ({ sid := 9, userId := none, userRole := some "customer",
                                 userName := none, currentChatRoom := none,
                                 locationPreference := none } : Socket) ∧
      memRoom st1 9 (RoomKey.user none) = true :=
  login_token_handshake_binds_undefined_userId wLogin initialState 9 "t" "42" "a@b.c" "customer" rfl
